import Mathlib

/-!
Verification of the Kafka execution-logger pipeline of this repository:
shallow embeddings of the message queue, circuit breaker, error
classifier, Segment event builder and the pipeline service's
`processMessage`, together with theorems settling the specification
claims about them.
-/

namespace KafkaLogger

/-! ## Message queue

Embedding of `MessageQueue`
(`components/circuit-breaker.interface.ts`, lines 53-148).
The queue is a bounded FIFO backed by a list; `maxSize` is the capacity.
-/

structure MessageQueue (α : Type) where
  messages : List α
  maxSize : Nat

/-- `MessageQueue.enqueue`: if the queue is at capacity, remove the oldest
message (`shift`), then append the new message (`push`); returns `false`
exactly when a drop occurred. -/
def MessageQueue.enqueue {α : Type} (q : MessageQueue α) (m : α) :
    MessageQueue α × Bool :=
  if q.messages.length ≥ q.maxSize then
    ({ q with messages := q.messages.tail ++ [m] }, false)
  else
    ({ q with messages := q.messages ++ [m] }, true)

/-- `MessageQueue.dequeue`: remove and return the head, or `none` when empty. -/
def MessageQueue.dequeue {α : Type} (q : MessageQueue α) :
    MessageQueue α × Option α :=
  match q.messages with
  | [] => (q, none)
  | h :: t => ({ q with messages := t }, some h)

/-- `MessageQueue.dequeueBatch`: remove and return up to `size` head
elements in FIFO order (`splice(0, min size length)`). -/
def MessageQueue.dequeueBatch {α : Type} (q : MessageQueue α) (size : Nat) :
    MessageQueue α × List α :=
  ({ q with messages := q.messages.drop size }, q.messages.take size)

/-- `MessageQueue.size`. -/
def MessageQueue.size {α : Type} (q : MessageQueue α) : Nat :=
  q.messages.length

/-- `MessageQueue.isEmpty`. -/
def MessageQueue.isEmpty {α : Type} (q : MessageQueue α) : Bool :=
  q.messages.length = 0

/-- `MessageQueue.isFull`. -/
def MessageQueue.isFull {α : Type} (q : MessageQueue α) : Bool :=
  q.messages.length ≥ q.maxSize

/-- A freshly constructed queue (`new MessageQueue(maxSize)`). -/
def MessageQueue.empty (α : Type) (maxSize : Nat) : MessageQueue α :=
  { messages := [], maxSize := maxSize }

/-! ### Queue operation traces

An arbitrary interleaving of the queue's mutating operations, with
bookkeeping (how many records were enqueued, removed by dequeues, and
dropped by overflowing enqueues, and the full enqueue stream in order). -/

inductive QueueOp (α : Type) where
  | enq (m : α)
  | deq
  | deqBatch (n : Nat)

structure QueueRun (α : Type) where
  queue : MessageQueue α
  outs : List α
  enqCount : Nat
  deqCount : Nat
  dropCount : Nat
  enqStream : List α

def stepOp {α : Type} (r : QueueRun α) : QueueOp α → QueueRun α
  | .enq m =>
    { r with
      queue := (r.queue.enqueue m).1
      enqCount := r.enqCount + 1
      dropCount := r.dropCount + (if (r.queue.enqueue m).2 then 0 else 1)
      enqStream := r.enqStream ++ [m] }
  | .deq =>
    { r with
      queue := r.queue.dequeue.1
      outs := r.outs ++ r.queue.dequeue.2.toList
      deqCount := r.deqCount + r.queue.dequeue.2.toList.length }
  | .deqBatch n =>
    { r with
      queue := (r.queue.dequeueBatch n).1
      outs := r.outs ++ (r.queue.dequeueBatch n).2
      deqCount := r.deqCount + (r.queue.dequeueBatch n).2.length }

def runOps {α : Type} (q0 : MessageQueue α) (ops : List (QueueOp α)) :
    QueueRun α :=
  ops.foldl stepOp
    { queue := q0, outs := [], enqCount := 0, deqCount := 0, dropCount := 0,
      enqStream := [] }

/-- Invariant tying a run's bookkeeping to the queue state: capacity is
fixed, the size never exceeds it, every enqueued record is accounted for
(still queued, dequeued, or dropped), and the records removed so far
followed by the surviving records form an order-preserving selection of
the enqueue stream. -/
def QueueInv {α : Type} (C : Nat) (r : QueueRun α) : Prop :=
  r.queue.maxSize = C ∧
  r.queue.messages.length ≤ C ∧
  r.enqCount = r.queue.messages.length + r.deqCount + r.dropCount ∧
  List.Sublist (r.outs ++ r.queue.messages) r.enqStream

lemma enqueue_full {α : Type} (q : MessageQueue α) (m : α)
    (h : q.messages.length ≥ q.maxSize) :
    q.enqueue m = ({ q with messages := q.messages.tail ++ [m] }, false) := by
  simp [MessageQueue.enqueue, h]

lemma enqueue_not_full {α : Type} (q : MessageQueue α) (m : α)
    (h : ¬ q.messages.length ≥ q.maxSize) :
    q.enqueue m = ({ q with messages := q.messages ++ [m] }, true) := by
  simp [MessageQueue.enqueue, h]

lemma queueInv_step {α : Type} {C : Nat} (hC : 0 < C) {r : QueueRun α}
    (hr : QueueInv C r) (op : QueueOp α) : QueueInv C (stepOp r op) := by
  obtain ⟨hmax, hlen, hcnt, hsub⟩ := hr
  cases op with
  | enq m =>
    by_cases hfull : r.queue.messages.length ≥ r.queue.maxSize
    · have hpos : 0 < r.queue.messages.length := lt_of_lt_of_le (hmax ▸ hC) hfull
      have htail : r.queue.messages.tail.length = r.queue.messages.length - 1 :=
        List.length_tail _
      simp only [stepOp, enqueue_full r.queue m hfull]
      refine ⟨hmax, ?_, ?_, ?_⟩
      · simp only [List.length_append, htail, List.length_singleton]
        omega
      · simp only [List.length_append, htail, List.length_singleton,
          Bool.false_eq_true, if_false]
        omega
      · have h1 : List.Sublist (r.outs ++ r.queue.messages.tail) r.enqStream :=
          (List.Sublist.append_left (List.tail_sublist _) r.outs).trans hsub
        have h2 : List.Sublist ((r.outs ++ r.queue.messages.tail) ++ [m])
            (r.enqStream ++ [m]) := h1.append (List.Sublist.refl [m])
        simpa [List.append_assoc] using h2
    · simp only [stepOp, enqueue_not_full r.queue m hfull]
      refine ⟨hmax, ?_, ?_, ?_⟩
      · simp only [List.length_append, List.length_singleton]
        omega
      · simp only [List.length_append, List.length_singleton, if_true]
        omega
      · have h2 : List.Sublist ((r.outs ++ r.queue.messages) ++ [m])
            (r.enqStream ++ [m]) := hsub.append (List.Sublist.refl [m])
        simpa [List.append_assoc] using h2
  | deq =>
    cases hmsg : r.queue.messages with
    | nil =>
      simp only [stepOp, MessageQueue.dequeue, hmsg]
      refine ⟨hmax, hlen, ?_, ?_⟩
      · simpa [hmsg] using hcnt
      · simpa [hmsg] using hsub
    | cons h t =>
      simp only [stepOp, MessageQueue.dequeue, hmsg]
      rw [hmsg] at hlen hcnt hsub
      simp only [List.length_cons] at hlen hcnt
      refine ⟨hmax, ?_, ?_, ?_⟩
      · show t.length ≤ C
        omega
      · show r.enqCount = t.length + (r.deqCount + (some h).toList.length) + r.dropCount
        simp only [Option.toList_some, List.length_singleton]
        omega
      · simpa [List.append_assoc] using hsub
  | deqBatch n =>
    simp only [stepOp, MessageQueue.dequeueBatch]
    refine ⟨hmax, ?_, ?_, ?_⟩
    · simp only [List.length_drop]
      omega
    · simp only [List.length_drop, List.length_take]
      omega
    · simpa [List.append_assoc] using hsub

lemma queueInv_foldl {α : Type} {C : Nat} (hC : 0 < C)
    (ops : List (QueueOp α)) :
    ∀ r : QueueRun α, QueueInv C r → QueueInv C (ops.foldl stepOp r) := by
  induction ops with
  | nil => intro r hr; exact hr
  | cons op rest ih =>
    intro r hr
    exact ih _ (queueInv_step hC hr op)

lemma queueInv_runOps {α : Type} {C : Nat} (hC : 0 < C)
    (ops : List (QueueOp α)) :
    QueueInv C (runOps (MessageQueue.empty α C) ops) := by
  apply queueInv_foldl hC
  exact ⟨rfl, Nat.zero_le _, rfl, List.Sublist.refl _⟩

/-! ## Error classifier

Embedding of `ErrorHandler.categorizeError` and its detection predicates
(`utils/error-handler.ts`, lines 87-204 and 404-475). -/

/-- JS `String.prototype.includes`, on the character lists of the strings. -/
def containsSub (hay needle : String) : Bool :=
  decide (List.IsInfix needle.data hay.data)

/-- JS `String.prototype.toLowerCase` (ASCII), mapping `Char.toLower`
over the characters. -/
def toLowerStr (s : String) : String :=
  String.mk (s.data.map Char.toLower)

inductive ErrorCategory where
  | configuration
  | connection
  | authentication
  | messageSending
  | serialization
  | queueOverflow
  | timeout
  | circuitBreaker
  | unknown
deriving DecidableEq, Repr

/-- The string values of the `ErrorCategory` enum. -/
def categoryName : ErrorCategory → String
  | .configuration => "CONFIGURATION"
  | .connection => "CONNECTION"
  | .authentication => "AUTHENTICATION"
  | .messageSending => "MESSAGE_SENDING"
  | .serialization => "SERIALIZATION"
  | .queueOverflow => "QUEUE_OVERFLOW"
  | .timeout => "TIMEOUT"
  | .circuitBreaker => "CIRCUIT_BREAKER"
  | .unknown => "UNKNOWN"

inductive ErrorSeverity where
  | low
  | medium
  | high
  | critical
deriving DecidableEq, Repr

structure CategorizedError where
  category : ErrorCategory
  severity : ErrorSeverity
  message : String
  shouldRetry : Bool
  shouldFallback : Bool
deriving DecidableEq, Repr

/-- `ErrorHandler.isConfigurationError` (on the lowercased message). -/
def isConfigurationError (message : String) : Bool :=
  containsSub message "configuration" ||
  containsSub message "invalid" ||
  containsSub message "missing" ||
  (containsSub message "broker" && containsSub message "format") ||
  (containsSub message "topic" && containsSub message "empty") ||
  (containsSub message "client id" && containsSub message "empty")

/-- `ErrorHandler.isAuthenticationError`. -/
def isAuthenticationError (message : String) : Bool :=
  containsSub message "authentication" ||
  containsSub message "unauthorized" ||
  containsSub message "sasl" ||
  containsSub message "credentials" ||
  containsSub message "login" ||
  containsSub message "auth"

/-- `ErrorHandler.isConnectionError`. -/
def isConnectionError (message : String) : Bool :=
  containsSub message "connection" ||
  containsSub message "connect" ||
  containsSub message "network" ||
  (containsSub message "broker" && containsSub message "unavailable") ||
  containsSub message "econnrefused" ||
  containsSub message "enotfound" ||
  containsSub message "ehostunreach"

/-- `ErrorHandler.isTimeoutError`. -/
def isTimeoutError (message : String) : Bool :=
  containsSub message "timeout" ||
  containsSub message "timed out" ||
  containsSub message "etimedout"

/-- `ErrorHandler.isSerializationError`. -/
def isSerializationError (message : String) : Bool :=
  containsSub message "serialization" ||
  containsSub message "json" ||
  containsSub message "parse" ||
  containsSub message "stringify" ||
  containsSub message "invalid message format"

/-- `ErrorHandler.isCircuitBreakerError`. -/
def isCircuitBreakerError (message : String) : Bool :=
  containsSub message "circuit breaker" ||
  (containsSub message "circuit" && containsSub message "open")

/-- `ErrorHandler.isQueueOverflowError`. -/
def isQueueOverflowError (message : String) : Bool :=
  (containsSub message "queue" &&
    (containsSub message "full" || containsSub message "overflow")) ||
  containsSub message "message dropped"

/-- `ErrorHandler.isMessageSendingError`. -/
def isMessageSendingError (message : String) : Bool :=
  containsSub message "send" ||
  containsSub message "publish" ||
  containsSub message "produce" ||
  (containsSub message "kafka" && containsSub message "failed")

/-- `ErrorHandler.categorizeError`: lowercase the error message, then test
the categories in source order, first match wins. -/
def categorizeError (errorMessage : String) : CategorizedError :=
  let m := toLowerStr errorMessage
  if isConfigurationError m then
    { category := .configuration, severity := .critical,
      message := "Configuration error detected",
      shouldRetry := false, shouldFallback := true }
  else if isAuthenticationError m then
    { category := .authentication, severity := .high,
      message := "Authentication failed",
      shouldRetry := false, shouldFallback := true }
  else if isConnectionError m then
    { category := .connection, severity := .high,
      message := "Connection error detected",
      shouldRetry := true, shouldFallback := true }
  else if isTimeoutError m then
    { category := .timeout, severity := .medium,
      message := "Operation timeout",
      shouldRetry := true, shouldFallback := true }
  else if isSerializationError m then
    { category := .serialization, severity := .medium,
      message := "Message serialization failed",
      shouldRetry := false, shouldFallback := false }
  else if isCircuitBreakerError m then
    { category := .circuitBreaker, severity := .medium,
      message := "Circuit breaker is open",
      shouldRetry := false, shouldFallback := true }
  else if isQueueOverflowError m then
    { category := .queueOverflow, severity := .medium,
      message := "Message queue overflow",
      shouldRetry := false, shouldFallback := true }
  else if isMessageSendingError m then
    { category := .messageSending, severity := .medium,
      message := "Failed to send message to Kafka",
      shouldRetry := true, shouldFallback := true }
  else
    { category := .unknown, severity := .medium,
      message := "Unknown error occurred",
      shouldRetry := true, shouldFallback := true }

/-! ## Circuit breaker

Embedding of `CircuitBreaker` (`components/circuit-breaker.ts`).
Times are epoch milliseconds (`Int`); `Date.now()` is passed in
explicitly as `now`, and one `execute` call is modelled at a single
instant. The guarded async operation is modelled as a function on an
explicit world state returning the new world and whether it succeeded,
so "the operation was invoked" is visible as a change of world. -/

inductive CBState where
  | Closed
  | Open
  | HalfOpen
deriving DecidableEq, Repr

structure CBConfig where
  failureThreshold : Nat
  resetTimeout : Int
  monitoringPeriod : Int
deriving DecidableEq, Repr

structure CircuitBreaker where
  state : CBState
  failureCount : Nat
  successCount : Nat
  lastFailureTime : Option Int
  nextAttemptTime : Option Int
  monitoringWindowStart : Int
deriving DecidableEq, Repr

/-- The freshly constructed breaker (`state = 'Closed'`, zero counters,
`monitoringWindowStart = Date.now()`). -/
def CircuitBreaker.init (now : Int) : CircuitBreaker :=
  { state := .Closed, failureCount := 0, successCount := 0,
    lastFailureTime := none, nextAttemptTime := none,
    monitoringWindowStart := now }

/-- `CircuitBreaker.checkMonitoringWindow`. -/
def checkMonitoringWindow (cfg : CBConfig) (now : Int) (cb : CircuitBreaker) :
    CircuitBreaker :=
  if now - cb.monitoringWindowStart ≥ cfg.monitoringPeriod then
    if cb.state = .Closed then
      { cb with
        monitoringWindowStart := now
        failureCount := 0
        successCount := 0 }
    else
      { cb with monitoringWindowStart := now }
  else cb

/-- `CircuitBreaker.shouldAttemptReset`. -/
def shouldAttemptReset (now : Int) (cb : CircuitBreaker) : Bool :=
  match cb.nextAttemptTime with
  | none => true
  | some t => now ≥ t

/-- `CircuitBreaker.setNextAttemptTime`: exponential backoff
`resetTimeout * min(2^(max 0 (failureCount - failureThreshold)), 8)`
(`Nat` subtraction is the `Math.max(0, ...)` of the source). -/
def setNextAttemptTime (cfg : CBConfig) (now : Int) (cb : CircuitBreaker) :
    CircuitBreaker :=
  let backoffMultiplier : Nat := 2 ^ (cb.failureCount - cfg.failureThreshold)
  let backoffTime : Int := cfg.resetTimeout * (min backoffMultiplier 8 : Nat)
  { cb with nextAttemptTime := some (now + backoffTime) }

/-- `CircuitBreaker.onSuccess`. -/
def onSuccess (cb : CircuitBreaker) : CircuitBreaker :=
  let cb' := { cb with successCount := cb.successCount + 1 }
  if cb'.state = .HalfOpen then
    { cb' with state := .Closed, failureCount := 0, nextAttemptTime := none }
  else cb'

/-- `CircuitBreaker.onFailure`. -/
def onFailure (cfg : CBConfig) (now : Int) (cb : CircuitBreaker) :
    CircuitBreaker :=
  let cb' := { cb with
    failureCount := cb.failureCount + 1
    lastFailureTime := some now }
  if cb'.state = .HalfOpen then
    setNextAttemptTime cfg now { cb' with state := .Open }
  else if cb'.state = .Closed ∧ cb'.failureCount ≥ cfg.failureThreshold then
    setNextAttemptTime cfg now { cb' with state := .Open }
  else cb'

inductive ExecOutcome where
  | rejected
  | succeeded
  | failed
deriving DecidableEq, Repr

/-- Run the guarded operation and observe its outcome (the
`try { await operation() ... } catch { ... }` block of `execute`). -/
def runOp {σ : Type} (cfg : CBConfig) (now : Int) (op : σ → σ × Bool)
    (w : σ) (cb : CircuitBreaker) : CircuitBreaker × σ × ExecOutcome :=
  let r := op w
  if r.2 then (onSuccess cb, r.1, .succeeded)
  else (onFailure cfg now cb, r.1, .failed)

/-- `CircuitBreaker.execute`. `.rejected` is the thrown
"Circuit breaker is open" error; in that case the operation is not run
and the world is unchanged. -/
def execute {σ : Type} (cfg : CBConfig) (now : Int) (op : σ → σ × Bool)
    (w : σ) (cb : CircuitBreaker) : CircuitBreaker × σ × ExecOutcome :=
  let cb' := checkMonitoringWindow cfg now cb
  if cb'.state = .Open then
    if shouldAttemptReset now cb' then
      runOp cfg now op w { cb' with state := .HalfOpen }
    else (cb', w, .rejected)
  else runOp cfg now op w cb'

structure CBMetrics where
  state : CBState
  failureCount : Nat
  successCount : Nat
  lastFailureTime : Option Int
  nextAttemptTime : Option Int
deriving DecidableEq, Repr

/-- `CircuitBreaker.getState`: runs the monitoring-window check, then
reads the state; returns the mutated breaker alongside the value. -/
def getState (cfg : CBConfig) (now : Int) (cb : CircuitBreaker) :
    CircuitBreaker × CBState :=
  let cb' := checkMonitoringWindow cfg now cb
  (cb', cb'.state)

/-- `CircuitBreaker.getMetrics`: runs the monitoring-window check, then
reads the counters; returns the mutated breaker alongside the value. -/
def getMetrics (cfg : CBConfig) (now : Int) (cb : CircuitBreaker) :
    CircuitBreaker × CBMetrics :=
  let cb' := checkMonitoringWindow cfg now cb
  (cb',
    { state := cb'.state
      failureCount := cb'.failureCount
      successCount := cb'.successCount
      lastFailureTime := cb'.lastFailureTime
      nextAttemptTime := cb'.nextAttemptTime })

/-- The externally triggerable transitions of one breaker instance:
an `execute` call whose operation succeeds or fails, or an observer
call (`getState`/`getMetrics`), each at some instant. -/
inductive CBEvent where
  | exec (now : Int) (opSucceeds : Bool)
  | observe (now : Int)

def cbStep (cfg : CBConfig) (cb : CircuitBreaker) : CBEvent → CircuitBreaker
  | .exec now ok => (execute cfg now (fun u : Unit => (u, ok)) () cb).1
  | .observe now => checkMonitoringWindow cfg now cb

/-- Breaker states reachable from a freshly constructed instance. -/
def cbRun (cfg : CBConfig) (now0 : Int) (evs : List CBEvent) : CircuitBreaker :=
  evs.foldl (cbStep cfg) (CircuitBreaker.init now0)

/-! ## Pipeline service: ingestion and flush-failure handling

Embedding of the queue/fallback-log effects of
`KafkaExecutionLogger.processMessage` and of the failure branch of
`flushQueuedMessages` (`services/kafka-execution-logger.service.ts`).
The fallback log (`ErrorHandler.logToFallback` / `logBatchToFallback`,
always enabled by `initializeComponents`) is modelled as the list of
entries appended so far; metric updates and logger calls carry no
pipeline state and are omitted. -/

inductive FallbackEntry (α : Type) where
  | single (m : α) (reason : String)
  | batch (ms : List α) (reason : String)
deriving DecidableEq, Repr

structure PipelineState (α : Type) where
  queue : MessageQueue α
  fallback : List (FallbackEntry α)

def overflowReason : String := "Queue overflow - message dropped"

/-- The enqueue tail of `processMessage` (lines 517-529): enqueue; when
`enqueue` reports an overflow, fallback-log the message that was passed
in, with reason `"Queue overflow - message dropped"`. -/
def pipeEnqueue {α : Type} (s : PipelineState α) (m : α) : PipelineState α :=
  let p := s.queue.enqueue m
  if p.2 then { s with queue := p.1 }
  else
    { queue := p.1
      fallback := s.fallback ++ [FallbackEntry.single m overflowReason] }

/-- `KafkaExecutionLogger.processMessage`: immediate send only when the
breaker reports `Closed`, the producer is connected and the queue is
empty; `sendResult = none` models a successful `producer.send`,
`some errMsg` a send failing with that message. A failed immediate send
falls back to the fallback log when the categorized error is
non-retryable but fallback-eligible, and otherwise falls through to the
enqueue tail. -/
def processMessage {α : Type} (breakerState : CBState) (connected : Bool)
    (sendResult : Option String) (s : PipelineState α) (m : α) :
    PipelineState α :=
  if breakerState = .Closed ∧ connected = true ∧ s.queue.size = 0 then
    match sendResult with
    | none => s
    | some errMsg =>
      let ce := categorizeError errMsg
      if ce.shouldRetry = false ∧ ce.shouldFallback = true then
        { s with fallback := s.fallback ++
            [FallbackEntry.single m
              ("Immediate send failed: " ++ categoryName ce.category)] }
      else pipeEnqueue s m
  else pipeEnqueue s m

/-- The `catch` branch of `KafkaExecutionLogger.flushQueuedMessages`
(lines 598-631) for an already-dequeued batch: categorize the error;
retryable → re-enqueue every message, fallback-logging each message
whose re-enqueue overflows with reason
`"Re-queue failed after send error"`; otherwise fallback-eligible →
one batch fallback entry `"Send failed: <CATEGORY>"` (skipped for an
empty batch, as `logBatchToFallback` returns early); otherwise drop. -/
def handleSendFailure {α : Type} (errMsg : String) (messages : List α)
    (s : PipelineState α) : PipelineState α :=
  let ce := categorizeError errMsg
  if ce.shouldRetry = true then
    messages.foldl (fun acc m =>
      let p := acc.queue.enqueue m
      if p.2 then { acc with queue := p.1 }
      else
        { queue := p.1
          fallback := acc.fallback ++
            [FallbackEntry.single m "Re-queue failed after send error"] }) s
  else if ce.shouldFallback = true then
    if messages.length = 0 then s
    else { s with fallback := s.fallback ++
      [FallbackEntry.batch messages
        ("Send failed: " ++ categoryName ce.category)] }
  else s

/-! ## Segment event builder

Embedding of `SegmentEventBuilder` (`utils/segment-event-builder.ts`)
and the data it reads (`models/execution-log-message.ts`,
`services/kafka-execution-logger.interface.ts`). `Date` values are epoch
milliseconds; optional string fields are `Option String`, with JS
falsiness of the empty string made explicit via `truthy`/`jsOrStr`.
The ambient process data (`N8N_VERSION`, `process.env.*`) is a
`BuildEnv`, and the values generated at build time
(`new Date().toISOString()`, `uuidv4()`) are a `BuildMeta`. -/

/-- JS truthiness of a possibly-absent string (`undefined` and `""` are
falsy). -/
def truthy : Option String → Bool
  | none => false
  | some s => !(s = "")

/-- JS `a || b` for a possibly-absent string `a` and a string default. -/
def jsOrStr : Option String → String → String
  | some s, dflt => if s = "" then dflt else s
  | none, dflt => dflt

structure N8nNode where
  type : String
  name : String
deriving DecidableEq, Repr

structure WorkflowData where
  id : Option String
  name : Option String
  nodes : Option (List N8nNode)
  versionId : Option String
deriving DecidableEq, Repr

structure NodeRef where
  id : String
  name : String
deriving DecidableEq, Repr

/-- The error found at `runData.data.resultData.error`. -/
structure RunError where
  name : String
  message : String
  stack : Option String
  node : Option NodeRef
deriving DecidableEq, Repr

structure RunData where
  status : Option String
  error : Option RunError
deriving DecidableEq, Repr

/-- `WorkflowExecutionContext`
(`services/kafka-execution-logger.interface.ts`, lines 7-17). -/
structure WorkflowExecutionContext where
  executionId : String
  workflowData : WorkflowData
  mode : String
  userId : Option String
  runData : Option RunData
  retryOf : Option String
  startedAt : Option Int
  finishedAt : Option Int
deriving DecidableEq, Repr

/-- Ambient process data read by the builder. -/
structure BuildEnv where
  n8nVersion : String
  nodeEnv : Option String
  environmentVar : Option String
  hostname : Option String
  instanceIdVar : Option String
  processType : Option String
deriving DecidableEq, Repr

/-- Values generated at build time: `new Date().toISOString()` and
`uuidv4()`. -/
structure BuildMeta where
  timestamp : String
  messageId : String
deriving DecidableEq, Repr

structure Dimensions where
  execution_mode : String
  status : Option String
  version : Option String
  environment : Option String
  trigger_type : Option String
  workflow_name : String
  error_type : Option String
deriving DecidableEq, Repr

structure Flags where
  is_manual_execution : Bool
  is_retry : Bool
deriving DecidableEq, Repr

structure EventMetrics where
  duration_ms : Option Int
  node_count : Nat
deriving DecidableEq, Repr

structure Involved where
  role : String
  id : String
  id_type : String
deriving DecidableEq, Repr

structure EventProps where
  trigger_node : Option String
  retry_of : Option String
  started_at : String
  finished_at : Option String
  error_message : Option String
  error_stack : Option String
  error_node_id : Option String
  error_node_name : Option String
  workflow_version : Option String
deriving DecidableEq, Repr

structure AppInfo where
  name : String
  version : String
deriving DecidableEq, Repr

structure LibInfo where
  name : String
  version : String
deriving DecidableEq, Repr

structure InstanceInfo where
  id : String
  type : String
deriving DecidableEq, Repr

structure N8nCtx where
  execution_mode : String
  instance_type : String
deriving DecidableEq, Repr

structure MessageContext where
  app : AppInfo
  library : LibInfo
  «instance» : InstanceInfo
  n8n : N8nCtx
deriving DecidableEq, Repr

/-- `ExecutionLogMessage` (`models/execution-log-message.ts`). -/
structure ExecutionLogMessage where
  type : String
  event : String
  userId : Option String
  anonymousId : Option String
  timestamp : String
  messageId : String
  dimensions : Dimensions
  flags : Flags
  metrics : EventMetrics
  tags : List String
  involves : List Involved
  properties : EventProps
  context : MessageContext
deriving DecidableEq, Repr

/-- Render an epoch-millisecond instant the way
`Date.prototype.toISOString` does (`YYYY-MM-DDTHH:MM:SS.sssZ`), for
instants whose year has four digits. Calendar conversion follows the
standard civil-from-days algorithm. -/
def pad2 (n : Nat) : String :=
  if n < 10 then "0" ++ toString n else toString n

def pad3 (n : Nat) : String :=
  if n < 10 then "00" ++ toString n
  else if n < 100 then "0" ++ toString n
  else toString n

def civilFromDays (z0 : Int) : Int × Nat × Nat :=
  let z := z0 + 719468
  let era := z.fdiv 146097
  let doe := (z - era * 146097).toNat
  let yoe := (doe - doe / 1460 + doe / 36524 - doe / 146096) / 365
  let y := (yoe : Int) + era * 400
  let doy := doe - (365 * yoe + yoe / 4 - yoe / 100)
  let mp := (5 * doy + 2) / 153
  let d := doy - (153 * mp + 2) / 5 + 1
  let m := if mp < 10 then mp + 3 else mp - 9
  (if m ≤ 2 then y + 1 else y, m, d)

def isoOfEpochMs (ms : Int) : String :=
  let days := ms.fdiv 86400000
  let msOfDay := (ms - days * 86400000).toNat
  let ymd := civilFromDays days
  let hh := msOfDay / 3600000
  let mm := msOfDay % 3600000 / 60000
  let ss := msOfDay % 60000 / 1000
  let mss := msOfDay % 1000
  toString ymd.1 ++ "-" ++ pad2 ymd.2.1 ++ "-" ++ pad2 ymd.2.2 ++ "T" ++
    pad2 hh ++ ":" ++ pad2 mm ++ ":" ++ pad2 ss ++ "." ++ pad3 mss ++ "Z"

namespace SegmentEventBuilder

def LIBRARY_NAME : String := "n8n-kafka-execution-logger"

def LIBRARY_VERSION : String := "1.0.0"

/-- `SegmentEventBuilder.mapExecutionMode`: the mode map is the identity
on its nine keys and `modeMap[mode] || mode` falls back to the mode, so
every mode maps to itself. -/
def mapExecutionMode (mode : String) : String :=
  if mode = "manual" then "manual"
  else if mode = "trigger" then "trigger"
  else if mode = "webhook" then "webhook"
  else if mode = "error" then "error"
  else if mode = "retry" then "retry"
  else if mode = "integrated" then "integrated"
  else if mode = "cli" then "cli"
  else if mode = "internal" then "internal"
  else if mode = "evaluation" then "evaluation"
  else mode

/-- `SegmentEventBuilder.mapExecutionStatus` (an absent or empty status
is falsy, hence `"unknown"`). -/
def mapExecutionStatus (status : Option String) : String :=
  if truthy status = false then "unknown"
  else
    let s := status.getD ""
    if s = "success" then "success"
    else if s = "error" then "error"
    else if s = "canceled" then "cancelled"
    else if s = "cancelled" then "cancelled"
    else if s = "crashed" then "error"
    else if s = "waiting" then "waiting"
    else if s = "running" then "running"
    else s

/-- `node.type.includes('trigger') || node.type.includes('Trigger')`. -/
def isTriggerNode (n : N8nNode) : Bool :=
  containsSub n.type "trigger" || containsSub n.type "Trigger"

/-- `SegmentEventBuilder.determineTriggerType`. -/
def determineTriggerType (workflowData : WorkflowData) (mode : String) :
    String :=
  if mode = "manual" then "manual"
  else if mode = "webhook" then "webhook"
  else if mode = "cli" then "cli"
  else
    match (workflowData.nodes.getD []).find? isTriggerNode with
    | some triggerNode =>
      if containsSub triggerNode.type "cron" ||
          containsSub triggerNode.type "schedule" then "schedule"
      else if containsSub triggerNode.type "webhook" then "webhook"
      else "trigger"
    | none => mode

/-- `SegmentEventBuilder.findTriggerNode`. -/
def findTriggerNode (workflowData : WorkflowData) : Option String :=
  ((workflowData.nodes.getD []).find? isTriggerNode).map (·.name)

/-- `SegmentEventBuilder.calculateDuration`. -/
def calculateDuration (startedAt finishedAt : Option Int) : Option Int :=
  match startedAt, finishedAt with
  | some s, some f => some (f - s)
  | _, _ => none

/-- `SegmentEventBuilder.categorizeError` (the event builder's error
classifier for `dimensions.error_type`). -/
def categorizeError (err : RunError) : String :=
  let errorName := err.name
  let errorMessage := err.message
  if containsSub errorName "NodeOperationError" then "NodeOperationError"
  else if containsSub errorName "ValidationError" then "ValidationError"
  else if containsSub errorName "ConnectionError" then "ConnectionError"
  else if containsSub errorName "AuthenticationError" then "AuthenticationError"
  else if containsSub errorName "TimeoutError" then "TimeoutError"
  else if containsSub errorMessage "ECONNREFUSED" then "ConnectionRefused"
  else if containsSub errorMessage "ETIMEDOUT" then "Timeout"
  else if containsSub errorMessage "ENOTFOUND" then "DNSError"
  else if containsSub errorName "Error" then errorName
  else "Unknown"

/-- `SegmentEventBuilder.generateAnonymousId`. -/
def generateAnonymousId (executionId : String) : String :=
  "anon_" ++ executionId.take 8

/-- `SegmentEventBuilder.getEnvironment`:
`process.env.NODE_ENV || process.env.ENVIRONMENT || 'development'`. -/
def getEnvironment (env : BuildEnv) : String :=
  jsOrStr env.nodeEnv (jsOrStr env.environmentVar "development")

/-- `SegmentEventBuilder.getInstanceId`:
`process.env.HOSTNAME || process.env.INSTANCE_ID || 'unknown'`. -/
def getInstanceId (env : BuildEnv) : String :=
  jsOrStr env.hostname (jsOrStr env.instanceIdVar "unknown")

/-- `SegmentEventBuilder.getInstanceType`. -/
def getInstanceType (env : BuildEnv) : String :=
  if env.processType = some "worker" then "worker" else "main"

/-- `SegmentEventBuilder.buildBaseEvent`. -/
def buildBaseEvent (env : BuildEnv) (meta : BuildMeta)
    (ctx : WorkflowExecutionContext) (eventName : String) :
    ExecutionLogMessage :=
  { type := "track"
    event := eventName
    userId := ctx.userId
    anonymousId :=
      if truthy ctx.userId then none
      else some (generateAnonymousId ctx.executionId)
    timestamp := meta.timestamp
    messageId := meta.messageId
    dimensions :=
      { execution_mode := mapExecutionMode ctx.mode
        status := none
        version := some env.n8nVersion
        environment := some (getEnvironment env)
        trigger_type := some (determineTriggerType ctx.workflowData ctx.mode)
        workflow_name := jsOrStr ctx.workflowData.name "Unnamed Workflow"
        error_type := none }
    flags :=
      { is_manual_execution := ctx.mode = "manual"
        is_retry := truthy ctx.retryOf }
    metrics :=
      { duration_ms := none
        node_count := (ctx.workflowData.nodes.getD []).length }
    tags := []
    involves :=
      [{ role := "WorkflowExecution", id := ctx.executionId, id_type := "n8n" },
       { role := "Workflow", id := jsOrStr ctx.workflowData.id "",
         id_type := "n8n" }]
    properties :=
      { trigger_node := findTriggerNode ctx.workflowData
        retry_of := ctx.retryOf
        started_at :=
          match ctx.startedAt with
          | some t => isoOfEpochMs t
          | none => meta.timestamp
        finished_at := ctx.finishedAt.map isoOfEpochMs
        error_message := none
        error_stack := none
        error_node_id := none
        error_node_name := none
        workflow_version := ctx.workflowData.versionId }
    context :=
      { app := { name := "n8n", version := env.n8nVersion }
        library := { name := LIBRARY_NAME, version := LIBRARY_VERSION }
        «instance» := { id := getInstanceId env, type := getInstanceType env }
        n8n :=
          { execution_mode := ctx.mode
            instance_type := getInstanceType env } } }

/-- `SegmentEventBuilder.buildWorkflowStartEvent`. -/
def buildWorkflowStartEvent (env : BuildEnv) (meta : BuildMeta)
    (ctx : WorkflowExecutionContext) : ExecutionLogMessage :=
  buildBaseEvent env meta ctx "Workflow Started"

/-- `SegmentEventBuilder.buildWorkflowCompleteEvent`. -/
def buildWorkflowCompleteEvent (env : BuildEnv) (meta : BuildMeta)
    (ctx : WorkflowExecutionContext) : ExecutionLogMessage :=
  let event := buildBaseEvent env meta ctx "Workflow Completed"
  match ctx.runData with
  | none => event
  | some runData =>
    { event with
      dimensions :=
        { event.dimensions with
          status := some (mapExecutionStatus runData.status) }
      metrics :=
        { event.metrics with
          duration_ms := calculateDuration ctx.startedAt ctx.finishedAt } }

/-- `SegmentEventBuilder.buildWorkflowErrorEvent`. -/
def buildWorkflowErrorEvent (env : BuildEnv) (meta : BuildMeta)
    (ctx : WorkflowExecutionContext) : ExecutionLogMessage :=
  let event0 := buildBaseEvent env meta ctx "Workflow Failed"
  let event1 :=
    { event0 with
      dimensions := { event0.dimensions with status := some "error" } }
  let event2 :=
    match ctx.runData.bind (·.error) with
    | none => event1
    | some err =>
      let event' :=
        { event1 with
          properties :=
            { event1.properties with
              error_message := some err.message
              error_stack := err.stack }
          dimensions :=
            { event1.dimensions with
              error_type := some (categorizeError err) } }
      match err.node with
      | none => event'
      | some node =>
        { event' with
          properties :=
            { event'.properties with
              error_node_id := some node.id
              error_node_name := some node.name } }
  match ctx.runData with
  | none => event2
  | some _ =>
    { event2 with
      metrics :=
        { event2.metrics with
          duration_ms := calculateDuration ctx.startedAt ctx.finishedAt } }

/-- `SegmentEventBuilder.buildWorkflowCancelEvent`. -/
def buildWorkflowCancelEvent (env : BuildEnv) (meta : BuildMeta)
    (ctx : WorkflowExecutionContext) : ExecutionLogMessage :=
  let event0 := buildBaseEvent env meta ctx "Workflow Cancelled"
  let event1 :=
    { event0 with
      dimensions := { event0.dimensions with status := some "cancelled" } }
  match ctx.runData with
  | none => event1
  | some _ =>
    { event1 with
      metrics :=
        { event1.metrics with
          duration_ms := calculateDuration ctx.startedAt ctx.finishedAt } }

/-- One character of `s.data` at index `i` is a decimal digit. -/
def digitAt (cs : List Char) (i : Nat) : Bool :=
  match cs.get? i with
  | some c => c.isDigit
  | none => false

def charAt (cs : List Char) (i : Nat) (c : Char) : Bool :=
  cs.get? i = some c

def digitVal (cs : List Char) (i : Nat) : Nat :=
  match cs.get? i with
  | some c => c.toNat - 48
  | none => 0

def num2 (cs : List Char) (i : Nat) : Nat :=
  10 * digitVal cs i + digitVal cs (i + 1)

/-- Models the `new Date(timestamp)` validity test of `validateEvent`
for timestamps in the simplified ISO-8601 format that
`Date.prototype.toISOString` emits (`YYYY-MM-DDTHH:MM:SS.sssZ` with
in-range calendar fields). -/
def isoTimestampValid (s : String) : Bool :=
  let cs := s.data
  (cs.length = 24 : Bool) &&
  ([0, 1, 2, 3, 5, 6, 8, 9, 11, 12, 14, 15, 17, 18, 20, 21, 22].all
    (digitAt cs)) &&
  charAt cs 4 '-' && charAt cs 7 '-' && charAt cs 10 'T' &&
  charAt cs 13 ':' && charAt cs 16 ':' && charAt cs 19 '.' &&
  charAt cs 23 'Z' &&
  (1 ≤ num2 cs 5 : Bool) && (num2 cs 5 ≤ 12 : Bool) &&
  (1 ≤ num2 cs 8 : Bool) && (num2 cs 8 ≤ 31 : Bool) &&
  (num2 cs 11 ≤ 23 : Bool) && (num2 cs 14 ≤ 59 : Bool) &&
  (num2 cs 17 ≤ 59 : Bool)

def isHexDigit (c : Char) : Bool :=
  c.isDigit || ('a' ≤ c && c ≤ 'f') || ('A' ≤ c && c ≤ 'F')

/-- The UUID regular expression of `validateEvent`:
`[0-9a-f]{8}-[0-9a-f]{4}-[1-5][0-9a-f]{3}-[89ab][0-9a-f]{3}-[0-9a-f]{12}`,
case-insensitive. -/
def uuidMatch (s : String) : Bool :=
  let cs := s.data
  (cs.length = 36 : Bool) &&
  ((List.range 36).all (fun i =>
    if i = 8 || i = 13 || i = 18 || i = 23 then charAt cs i '-'
    else if i = 14 then
      match cs.get? i with
      | some c => '1' ≤ c && c ≤ '5'
      | none => false
    else if i = 19 then
      match cs.get? i with
      | some c => c = '8' || c = '9' || c = 'a' || c = 'b' ||
          c = 'A' || c = 'B'
      | none => false
    else
      match cs.get? i with
      | some c => isHexDigit c
      | none => false))

/-- `SegmentEventBuilder.validateEvent`. -/
def validateEvent (event : ExecutionLogMessage) : Bool :=
  if event.type ≠ "track" then false
  else if event.event = "" then false
  else if event.timestamp = "" then false
  else if event.messageId = "" then false
  else if !(truthy event.userId || truthy event.anonymousId) then false
  else if !(isoTimestampValid event.timestamp) then false
  else if !(uuidMatch event.messageId) then false
  else true

end SegmentEventBuilder

/-! ## Concrete sample inputs used by witnesses and counterexamples -/

/-- The S4 overflow scenario's ingestion stream: `msg-1` … `msg-20`. -/
def s4Messages : List String :=
  (List.range 20).map (fun i => "msg-" ++ toString (i + 1))

/-- Ingesting `msg-1` … `msg-20` through `processMessage` with the
producer disconnected and the breaker `Open`, into a queue of
capacity 5 with an empty fallback log. -/
def s4Result : PipelineState String :=
  s4Messages.foldl (processMessage CBState.Open false none)
    { queue := MessageQueue.empty String 5, fallback := [] }

/-! ## Claim theorems -/

/-- C8, counterexample: the claimed final-size formula
`min(N − dequeues, C)` fails once an overflow drop interleaves with a
dequeue. With capacity 1, enqueue 0, enqueue 1 (dropping 0), dequeue:
N = 2 enqueues and 1 dequeue, yet the final size is 0, not
`min(2 − 1, 1) = 1`. -/
theorem messageQueue_size_formula_counterexample :
    (runOps (MessageQueue.empty Nat 1)
      [QueueOp.enq 0, QueueOp.enq 1, QueueOp.deq]).enqCount = 2 ∧
    (runOps (MessageQueue.empty Nat 1)
      [QueueOp.enq 0, QueueOp.enq 1, QueueOp.deq]).deqCount = 1 ∧
    ¬ ((runOps (MessageQueue.empty Nat 1)
        [QueueOp.enq 0, QueueOp.enq 1, QueueOp.deq]).queue.size =
      min ((runOps (MessageQueue.empty Nat 1)
          [QueueOp.enq 0, QueueOp.enq 1, QueueOp.deq]).enqCount -
        (runOps (MessageQueue.empty Nat 1)
          [QueueOp.enq 0, QueueOp.enq 1, QueueOp.deq]).deqCount) 1) := by
  decide

/-- C8, amended: for every sequence of enqueue, dequeue and dequeueBatch
operations on a `MessageQueue` of capacity `C > 0`: `enqueue` always
admits the new record, first dropping the head exactly when the queue is
at capacity, and returns `false` exactly when a drop occurred; the size
never exceeds `C`; the number of enqueues equals the final size plus the
number of records removed by dequeues plus the number dropped by
overflow (so the final size is `min(N − dequeues, C)` only when no
overflow drop precedes a dequeue); and the records removed so far
followed by the surviving records form an order-preserving selection of
the enqueue stream, i.e. survivors are dequeued in enqueue order. -/
theorem messageQueue_fifo_amended {α : Type} (C : Nat) (hC : 0 < C)
    (ops : List (QueueOp α)) :
    (∀ (q : MessageQueue α) (m : α),
      ((q.enqueue m).1.messages =
        if q.messages.length ≥ q.maxSize then q.messages.tail ++ [m]
        else q.messages ++ [m]) ∧
      ((q.enqueue m).2 = false ↔ q.messages.length ≥ q.maxSize)) ∧
    (runOps (MessageQueue.empty α C) ops).queue.size ≤ C ∧
    (runOps (MessageQueue.empty α C) ops).enqCount =
      (runOps (MessageQueue.empty α C) ops).queue.size +
        (runOps (MessageQueue.empty α C) ops).deqCount +
        (runOps (MessageQueue.empty α C) ops).dropCount ∧
    List.Sublist
      ((runOps (MessageQueue.empty α C) ops).outs ++
        (runOps (MessageQueue.empty α C) ops).queue.messages)
      (runOps (MessageQueue.empty α C) ops).enqStream := by
  obtain ⟨hmax, hlen, hcnt, hsub⟩ := queueInv_runOps hC ops
  refine ⟨?_, hlen, hcnt, hsub⟩
  intro q m
  by_cases h : q.messages.length ≥ q.maxSize
  · rw [enqueue_full q m h]
    exact ⟨by simp [h], by simp [h]⟩
  · rw [enqueue_not_full q m h]
    exact ⟨by simp [h], by simp [h]⟩

/-- C8, witness: the amended theorem at capacity 2 and the concrete
trace enqueue 1, enqueue 2, enqueue 3 (dropping 1), dequeue 2. -/
theorem messageQueue_fifo_amended_witness :
    0 < 2 ∧
    ((∀ (q : MessageQueue Nat) (m : Nat),
      ((q.enqueue m).1.messages =
        if q.messages.length ≥ q.maxSize then q.messages.tail ++ [m]
        else q.messages ++ [m]) ∧
      ((q.enqueue m).2 = false ↔ q.messages.length ≥ q.maxSize)) ∧
    (runOps (MessageQueue.empty Nat 2)
      [QueueOp.enq 1, QueueOp.enq 2, QueueOp.enq 3, QueueOp.deq]).queue.size ≤ 2 ∧
    (runOps (MessageQueue.empty Nat 2)
      [QueueOp.enq 1, QueueOp.enq 2, QueueOp.enq 3, QueueOp.deq]).enqCount =
      (runOps (MessageQueue.empty Nat 2)
        [QueueOp.enq 1, QueueOp.enq 2, QueueOp.enq 3, QueueOp.deq]).queue.size +
        (runOps (MessageQueue.empty Nat 2)
          [QueueOp.enq 1, QueueOp.enq 2, QueueOp.enq 3, QueueOp.deq]).deqCount +
        (runOps (MessageQueue.empty Nat 2)
          [QueueOp.enq 1, QueueOp.enq 2, QueueOp.enq 3, QueueOp.deq]).dropCount ∧
    List.Sublist
      ((runOps (MessageQueue.empty Nat 2)
        [QueueOp.enq 1, QueueOp.enq 2, QueueOp.enq 3, QueueOp.deq]).outs ++
        (runOps (MessageQueue.empty Nat 2)
          [QueueOp.enq 1, QueueOp.enq 2, QueueOp.enq 3, QueueOp.deq]).queue.messages)
      (runOps (MessageQueue.empty Nat 2)
        [QueueOp.enq 1, QueueOp.enq 2, QueueOp.enq 3, QueueOp.deq]).enqStream) :=
  ⟨by decide,
    messageQueue_fifo_amended 2 (by decide)
      [QueueOp.enq 1, QueueOp.enq 2, QueueOp.enq 3, QueueOp.deq]⟩

set_option maxRecDepth 10000 in
/-- C1, counterexample: in the S4 scenario (capacity 5, breaker `Open`,
producer disconnected, ingest `msg-1` … `msg-20`) the queue does end
with `msg-16` … `msg-20`, but the fallback log receives the fifteen
*newly admitted* records `msg-6` … `msg-20` — each overflow drops the
head yet fallback-logs the record just enqueued — not the dropped
records `msg-1` … `msg-15` the claim names. -/
theorem processMessage_overflow_counterexample :
    s4Result.queue.messages =
      ["msg-16", "msg-17", "msg-18", "msg-19", "msg-20"] ∧
    s4Result.fallback =
      (List.range 15).map (fun i =>
        FallbackEntry.single ("msg-" ++ toString (i + 6)) overflowReason) ∧
    ¬ s4Result.fallback =
      (List.range 15).map (fun i =>
        FallbackEntry.single ("msg-" ++ toString (i + 1)) overflowReason) := by
  decide

set_option maxRecDepth 10000 in
/-- C1, amended: with the breaker `Open` and the producer disconnected,
`processMessage` always takes the enqueue path; when `enqueue` reports
an overflow (the queue was at capacity, so its head was dropped), the
pipeline fallback-logs the *newly admitted* record with reason
`"Queue overflow - message dropped"`. In the S4 scenario the queue ends
holding `msg-16` … `msg-20` in order and the fallback log holds exactly
`msg-6` … `msg-20`, each with that reason. -/
theorem processMessage_overflow_amended :
    (∀ (α : Type) (sendResult : Option String) (s : PipelineState α) (m : α),
      processMessage CBState.Open false sendResult s m = pipeEnqueue s m ∧
      (pipeEnqueue s m).fallback =
        (if s.queue.messages.length ≥ s.queue.maxSize then
          s.fallback ++ [FallbackEntry.single m overflowReason]
        else s.fallback) ∧
      (pipeEnqueue s m).queue.messages =
        (if s.queue.messages.length ≥ s.queue.maxSize then
          s.queue.messages.tail ++ [m]
        else s.queue.messages ++ [m])) ∧
    s4Result.queue.messages =
      ["msg-16", "msg-17", "msg-18", "msg-19", "msg-20"] ∧
    s4Result.fallback =
      (List.range 15).map (fun i =>
        FallbackEntry.single ("msg-" ++ toString (i + 6)) overflowReason) := by
  refine ⟨?_, by decide, by decide⟩
  intro α sendResult s m
  refine ⟨?_, ?_, ?_⟩
  · simp [processMessage]
  · by_cases h : s.queue.messages.length ≥ s.queue.maxSize
    · simp [pipeEnqueue, enqueue_full s.queue m h, h]
    · simp [pipeEnqueue, enqueue_not_full s.queue m h, h]
  · by_cases h : s.queue.messages.length ≥ s.queue.maxSize
    · simp [pipeEnqueue, enqueue_full s.queue m h, h]
    · simp [pipeEnqueue, enqueue_not_full s.queue m h, h]

/-- C2: an error whose lowercased message contains a serialization
trigger substring (`isSerializationError`) and, per the first-match-wins
category order, matches none of the earlier categories (configuration,
authentication, connection, timeout), is categorized as `serialization`
with severity `medium`, `shouldRetry = false` and
`shouldFallback = false`; consequently the flush failure handler neither
re-enqueues nor fallback-logs the offending batch — it is dropped. -/
theorem categorizeError_serialization (msg : String)
    (hser : isSerializationError (toLowerStr msg) = true)
    (hcfg : isConfigurationError (toLowerStr msg) = false)
    (hauth : isAuthenticationError (toLowerStr msg) = false)
    (hconn : isConnectionError (toLowerStr msg) = false)
    (htime : isTimeoutError (toLowerStr msg) = false) :
    categorizeError msg =
      { category := ErrorCategory.serialization
        severity := ErrorSeverity.medium
        message := "Message serialization failed"
        shouldRetry := false
        shouldFallback := false } ∧
    (∀ (α : Type) (messages : List α) (s : PipelineState α),
      handleSendFailure msg messages s = s) := by
  have hcat : categorizeError msg =
      { category := ErrorCategory.serialization
        severity := ErrorSeverity.medium
        message := "Message serialization failed"
        shouldRetry := false
        shouldFallback := false } := by
    simp [categorizeError, hser, hcfg, hauth, hconn, htime]
  refine ⟨hcat, ?_⟩
  intro α messages s
  simp [handleSendFailure, hcat]

/-- C2, witness: the error message `"json"` matches the serialization
category and none of the earlier categories, and its batch is dropped by
the flush failure handler. -/
theorem categorizeError_serialization_witness :
    (isSerializationError (toLowerStr "json") = true ∧
      isConfigurationError (toLowerStr "json") = false ∧
      isAuthenticationError (toLowerStr "json") = false ∧
      isConnectionError (toLowerStr "json") = false ∧
      isTimeoutError (toLowerStr "json") = false) ∧
    categorizeError "json" =
      { category := ErrorCategory.serialization
        severity := ErrorSeverity.medium
        message := "Message serialization failed"
        shouldRetry := false
        shouldFallback := false } ∧
    (∀ (α : Type) (messages : List α) (s : PipelineState α),
      handleSendFailure "json" messages s = s) :=
  ⟨⟨by decide, by decide, by decide, by decide, by decide⟩,
    categorizeError_serialization "json" (by decide) (by decide) (by decide)
      (by decide) (by decide)⟩

/-- Sample ambient process data. -/
def sampleEnv : BuildEnv :=
  { n8nVersion := "1.0.0"
    nodeEnv := some "production"
    environmentVar := none
    hostname := some "host-1"
    instanceIdVar := none
    processType := none }

/-- Sample build-time values: a `toISOString`-shaped timestamp and a
version-4 UUID. -/
def sampleMeta : BuildMeta :=
  { timestamp := "2023-01-01T10:00:00.000Z"
    messageId := "123e4567-e89b-42d3-a456-426614174000" }

/-- Sample workflow with two ordinary nodes. -/
def sampleWorkflow : WorkflowData :=
  { id := some "workflow-123"
    name := some "Test Workflow"
    nodes := some
      [{ type := "n8n-nodes-base.start", name := "Start" },
       { type := "n8n-nodes-base.httpRequest", name := "HTTP Request" }]
    versionId := some "1" }

/-- A workflow whose only node's type contains `cron` but not
`trigger`/`Trigger`. -/
def cronOnlyWorkflow : WorkflowData :=
  { id := none
    name := none
    nodes := some [{ type := "cron", name := "Cron" }]
    versionId := none }

/-- A workflow whose first (and only) trigger node is a schedule
trigger. -/
def scheduleWorkflow : WorkflowData :=
  { id := some "workflow-124"
    name := some "Scheduled Workflow"
    nodes := some
      [{ type := "n8n-nodes-base.scheduleTrigger", name := "Schedule Trigger" }]
    versionId := none }

/-- The trigger-type derivation exactly as claim C3 states it: for mode
`trigger`, `schedule` if *any* node's type contains `cron` or
`schedule`, else `webhook` if any node's type contains `webhook`, else
`trigger`; every mode other than the six named ones is returned as-is.
Spec-shaped definition, to be compared with the source's
`determineTriggerType`. -/
def claimedTriggerType (workflowData : WorkflowData) (mode : String) :
    String :=
  if mode = "manual" then "manual"
  else if mode = "webhook" then "webhook"
  else if mode = "cli" then "cli"
  else if mode = "trigger" then
    if (workflowData.nodes.getD []).any (fun n =>
        containsSub n.type "cron" || containsSub n.type "schedule") then
      "schedule"
    else if (workflowData.nodes.getD []).any (fun n =>
        containsSub n.type "webhook") then "webhook"
    else "trigger"
  else mode

/-- C3, counterexample: in `trigger` mode with a single node of type
`"cron"`, the claim demands `"schedule"`, but the source first looks for
a node whose type contains `trigger`/`Trigger`, finds none, and returns
the mode `"trigger"`. -/
theorem determineTriggerType_counterexample :
    SegmentEventBuilder.determineTriggerType cronOnlyWorkflow "trigger" =
      "trigger" ∧
    claimedTriggerType cronOnlyWorkflow "trigger" = "schedule" ∧
    ¬ SegmentEventBuilder.determineTriggerType cronOnlyWorkflow "trigger" =
      claimedTriggerType cronOnlyWorkflow "trigger" := by
  decide

/-- C3, amended: modes `manual`, `webhook`, `cli` map to themselves; for
*every* other mode (not only `trigger`) the source inspects the *first*
node whose type contains `trigger` or `Trigger`: if found, its type
decides the result (`cron`/`schedule` → `schedule`, else `webhook` →
`webhook`, else `trigger`); if no such node exists the mode itself is
returned. -/
theorem determineTriggerType_amended (workflowData : WorkflowData)
    (mode : String) (hm : mode ≠ "manual") (hw : mode ≠ "webhook")
    (hc : mode ≠ "cli") :
    SegmentEventBuilder.determineTriggerType workflowData mode =
      (match (workflowData.nodes.getD []).find?
          SegmentEventBuilder.isTriggerNode with
        | some t =>
          if containsSub t.type "cron" || containsSub t.type "schedule" then
            "schedule"
          else if containsSub t.type "webhook" then "webhook"
          else "trigger"
        | none => mode) ∧
    SegmentEventBuilder.determineTriggerType workflowData "manual" =
      "manual" ∧
    SegmentEventBuilder.determineTriggerType workflowData "webhook" =
      "webhook" ∧
    SegmentEventBuilder.determineTriggerType workflowData "cli" = "cli" := by
  refine ⟨?_, by simp [SegmentEventBuilder.determineTriggerType],
    by simp [SegmentEventBuilder.determineTriggerType],
    by simp [SegmentEventBuilder.determineTriggerType]⟩
  simp [SegmentEventBuilder.determineTriggerType, hm, hw, hc]

/-- C3, witness: the amended theorem at mode `retry` and a workflow
whose first trigger node is a schedule trigger. -/
theorem determineTriggerType_amended_witness :
    ("retry" ≠ "manual" ∧ "retry" ≠ "webhook" ∧ "retry" ≠ "cli") ∧
    (SegmentEventBuilder.determineTriggerType scheduleWorkflow "retry" =
      (match (scheduleWorkflow.nodes.getD []).find?
          SegmentEventBuilder.isTriggerNode with
        | some t =>
          if containsSub t.type "cron" || containsSub t.type "schedule" then
            "schedule"
          else if containsSub t.type "webhook" then "webhook"
          else "trigger"
        | none => "retry") ∧
    SegmentEventBuilder.determineTriggerType scheduleWorkflow "manual" =
      "manual" ∧
    SegmentEventBuilder.determineTriggerType scheduleWorkflow "webhook" =
      "webhook" ∧
    SegmentEventBuilder.determineTriggerType scheduleWorkflow "cli" =
      "cli") :=
  ⟨⟨by decide, by decide, by decide⟩,
    determineTriggerType_amended scheduleWorkflow "retry" (by decide)
      (by decide) (by decide)⟩

/-- The event-name / status agreement exactly as claim C4 states it. -/
def statusAgreesClaim (e : ExecutionLogMessage) : Prop :=
  (e.event = "Workflow Completed" → e.dimensions.status = some "success") ∧
  (e.event = "Workflow Failed" → e.dimensions.status = some "error") ∧
  (e.event = "Workflow Cancelled" → e.dimensions.status = some "cancelled") ∧
  (e.event = "Workflow Started" → e.dimensions.status = none)

instance (e : ExecutionLogMessage) : Decidable (statusAgreesClaim e) := by
  unfold statusAgreesClaim
  infer_instance

/-- A context whose run summary reports status `"error"`. -/
def errStatusCtx : WorkflowExecutionContext :=
  { executionId := "exec-456"
    workflowData := sampleWorkflow
    mode := "manual"
    userId := some "user-789"
    runData := some { status := some "error", error := none }
    retryOf := none
    startedAt := some 1672567200000
    finishedAt := some 1672567290000 }

/-- A context whose run summary reports status `"success"` (the S2
scenario's timing: started 10:00:00Z, finished 10:01:30Z). -/
def successCtx : WorkflowExecutionContext :=
  { executionId := "exec-456"
    workflowData := sampleWorkflow
    mode := "manual"
    userId := some "user-789"
    runData := some { status := some "success", error := none }
    retryOf := none
    startedAt := some 1672567200000
    finishedAt := some 1672567290000 }

/-- C4, counterexample: `buildWorkflowCompleteEvent` copies the run
summary's status through `mapExecutionStatus` instead of forcing
`"success"`, so a complete-event built from a run whose status is
`"error"` is a `"Workflow Completed"` record with
`dimensions.status = "error"`. -/
theorem eventStatus_counterexample :
    (SegmentEventBuilder.buildWorkflowCompleteEvent sampleEnv sampleMeta
      errStatusCtx).event = "Workflow Completed" ∧
    (SegmentEventBuilder.buildWorkflowCompleteEvent sampleEnv sampleMeta
      errStatusCtx).dimensions.status = some "error" ∧
    ¬ statusAgreesClaim (SegmentEventBuilder.buildWorkflowCompleteEvent
      sampleEnv sampleMeta errStatusCtx) := by
  decide

/-- C4, amended: Failed records always carry status `"error"`, Cancelled
records `"cancelled"`, Started records no status; Completed records
carry `mapExecutionStatus` of the run summary's status when a run
summary is present (`"success"` exactly for run status `"success"`) and
no status when it is absent. -/
theorem eventStatus_amended (env : BuildEnv) (meta : BuildMeta)
    (ctx : WorkflowExecutionContext) :
    (SegmentEventBuilder.buildWorkflowErrorEvent env meta ctx).event =
      "Workflow Failed" ∧
    (SegmentEventBuilder.buildWorkflowErrorEvent env meta
      ctx).dimensions.status = some "error" ∧
    (SegmentEventBuilder.buildWorkflowCancelEvent env meta ctx).event =
      "Workflow Cancelled" ∧
    (SegmentEventBuilder.buildWorkflowCancelEvent env meta
      ctx).dimensions.status = some "cancelled" ∧
    (SegmentEventBuilder.buildWorkflowStartEvent env meta ctx).event =
      "Workflow Started" ∧
    (SegmentEventBuilder.buildWorkflowStartEvent env meta
      ctx).dimensions.status = none ∧
    (SegmentEventBuilder.buildWorkflowCompleteEvent env meta ctx).event =
      "Workflow Completed" ∧
    (ctx.runData = none →
      (SegmentEventBuilder.buildWorkflowCompleteEvent env meta
        ctx).dimensions.status = none) ∧
    (∀ rd, ctx.runData = some rd →
      (SegmentEventBuilder.buildWorkflowCompleteEvent env meta
        ctx).dimensions.status =
        some (SegmentEventBuilder.mapExecutionStatus rd.status)) ∧
    (∀ rd, ctx.runData = some rd → rd.status = some "success" →
      (SegmentEventBuilder.buildWorkflowCompleteEvent env meta
        ctx).dimensions.status = some "success") := by
  refine ⟨?_, ?_, ?_, ?_, rfl, rfl, ?_, ?_, ?_, ?_⟩
  · unfold SegmentEventBuilder.buildWorkflowErrorEvent
    repeat' split
    all_goals rfl
  · unfold SegmentEventBuilder.buildWorkflowErrorEvent
    repeat' split
    all_goals rfl
  · unfold SegmentEventBuilder.buildWorkflowCancelEvent
    repeat' split
    all_goals rfl
  · unfold SegmentEventBuilder.buildWorkflowCancelEvent
    repeat' split
    all_goals rfl
  · unfold SegmentEventBuilder.buildWorkflowCompleteEvent
    repeat' split
    all_goals rfl
  · intro hrd
    unfold SegmentEventBuilder.buildWorkflowCompleteEvent
    rw [hrd]
    rfl
  · intro rd hrd
    unfold SegmentEventBuilder.buildWorkflowCompleteEvent
    rw [hrd]
  · intro rd hrd hst
    unfold SegmentEventBuilder.buildWorkflowCompleteEvent
    rw [hrd]
    show some (SegmentEventBuilder.mapExecutionStatus rd.status) =
      some "success"
    rw [hst]
    decide

/-- C4, witness: the amended theorem at a context whose run summary has
status `"success"` — the Completed record then carries status
`"success"`, the Failed record `"error"`, the Cancelled record
`"cancelled"` and the Started record none. -/
theorem eventStatus_amended_witness :
    successCtx.runData = some { status := some "success", error := none } ∧
    (SegmentEventBuilder.buildWorkflowCompleteEvent sampleEnv sampleMeta
      successCtx).dimensions.status = some "success" ∧
    (SegmentEventBuilder.buildWorkflowErrorEvent sampleEnv sampleMeta
      successCtx).dimensions.status = some "error" ∧
    (SegmentEventBuilder.buildWorkflowCancelEvent sampleEnv sampleMeta
      successCtx).dimensions.status = some "cancelled" ∧
    (SegmentEventBuilder.buildWorkflowStartEvent sampleEnv sampleMeta
      successCtx).dimensions.status = none :=
  ⟨rfl,
    (eventStatus_amended sampleEnv sampleMeta
      successCtx).2.2.2.2.2.2.2.2.2
      { status := some "success", error := none } rfl rfl,
    (eventStatus_amended sampleEnv sampleMeta successCtx).2.1,
    (eventStatus_amended sampleEnv sampleMeta successCtx).2.2.2.1,
    (eventStatus_amended sampleEnv sampleMeta successCtx).2.2.2.2.2.1⟩

/-- A context whose finish instant precedes its start instant. -/
def backwardsCtx : WorkflowExecutionContext :=
  { executionId := "exec-456"
    workflowData := sampleWorkflow
    mode := "manual"
    userId := some "user-789"
    runData := some { status := some "success", error := none }
    retryOf := none
    startedAt := some 1000
    finishedAt := some 0 }

/-- C5, counterexample: `calculateDuration` is a plain subtraction of
epoch milliseconds, so a context whose `finishedAt` precedes its
`startedAt` yields a built record whose `metrics.duration_ms` is present
and negative, contradicting the claimed non-negativity. -/
theorem duration_counterexample :
    (SegmentEventBuilder.buildWorkflowCompleteEvent sampleEnv sampleMeta
      backwardsCtx).metrics.duration_ms = some (-1000) ∧
    (-1000 : Int) < 0 := by
  decide

/-- C5, amended: when a run summary is present and both instants exist,
the Completed, Failed and Cancelled records carry
`duration_ms = finishedAt − startedAt` in integer milliseconds (the
Started record carries none), and that value is non-negative whenever
the start does not come after the finish — but nothing forces
non-negativity when the instants are reversed. -/
theorem duration_amended (env : BuildEnv) (meta : BuildMeta)
    (ctx : WorkflowExecutionContext) (s f : Int)
    (hs : ctx.startedAt = some s) (hf : ctx.finishedAt = some f)
    (rd : RunData) (hrd : ctx.runData = some rd) :
    (SegmentEventBuilder.buildWorkflowCompleteEvent env meta
      ctx).metrics.duration_ms = some (f - s) ∧
    (SegmentEventBuilder.buildWorkflowErrorEvent env meta
      ctx).metrics.duration_ms = some (f - s) ∧
    (SegmentEventBuilder.buildWorkflowCancelEvent env meta
      ctx).metrics.duration_ms = some (f - s) ∧
    (SegmentEventBuilder.buildWorkflowStartEvent env meta
      ctx).metrics.duration_ms = none ∧
    (s ≤ f → 0 ≤ f - s) := by
  refine ⟨?_, ?_, ?_, rfl, fun h => by omega⟩
  · unfold SegmentEventBuilder.buildWorkflowCompleteEvent
    rw [hrd]
    show SegmentEventBuilder.calculateDuration ctx.startedAt ctx.finishedAt =
      some (f - s)
    rw [hs, hf]
    rfl
  · unfold SegmentEventBuilder.buildWorkflowErrorEvent
    rw [hrd]
    show SegmentEventBuilder.calculateDuration ctx.startedAt ctx.finishedAt =
      some (f - s)
    rw [hs, hf]
    rfl
  · unfold SegmentEventBuilder.buildWorkflowCancelEvent
    rw [hrd]
    show SegmentEventBuilder.calculateDuration ctx.startedAt ctx.finishedAt =
      some (f - s)
    rw [hs, hf]
    rfl

/-- C5, witness: the S2 scenario — started `2023-01-01T10:00:00Z`
(epoch 1672567200000), finished `2023-01-01T10:01:30Z`
(epoch 1672567290000) — gives `duration_ms = 90000`. -/
theorem duration_amended_witness :
    successCtx.startedAt = some 1672567200000 ∧
    successCtx.finishedAt = some 1672567290000 ∧
    successCtx.runData = some { status := some "success", error := none } ∧
    (SegmentEventBuilder.buildWorkflowCompleteEvent sampleEnv sampleMeta
      successCtx).metrics.duration_ms = some 90000 ∧
    (0 : Int) ≤ 90000 :=
  ⟨rfl, rfl, rfl,
    (duration_amended sampleEnv sampleMeta successCtx 1672567200000
      1672567290000 rfl rfl { status := some "success", error := none }
      rfl).1.trans (by decide),
    by decide⟩

lemma anon_ne_empty (x : String) : ("anon_" ++ x) ≠ "" := by
  intro h
  have := congrArg String.length h
  simp [String.length_append] at this
  exact absurd this.1 (by decide)

lemma validateEvent_base (env : BuildEnv) (meta : BuildMeta)
    (ctx : WorkflowExecutionContext) (name : String) (hname : name ≠ "")
    (h1 : SegmentEventBuilder.isoTimestampValid meta.timestamp = true)
    (h2 : SegmentEventBuilder.uuidMatch meta.messageId = true)
    (h3 : ctx.userId ≠ some "") :
    SegmentEventBuilder.validateEvent
      (SegmentEventBuilder.buildBaseEvent env meta ctx name) = true := by
  have ht : meta.timestamp ≠ "" := by
    intro h
    rw [h] at h1
    exact absurd h1 (by decide)
  have hm : meta.messageId ≠ "" := by
    intro h
    rw [h] at h2
    exact absurd h2 (by decide)
  have huser : (truthy ctx.userId ||
      truthy (if truthy ctx.userId then none
        else some (SegmentEventBuilder.generateAnonymousId
          ctx.executionId))) = true := by
    cases hu : ctx.userId with
    | none =>
      simp [truthy, SegmentEventBuilder.generateAnonymousId, anon_ne_empty]
    | some u =>
      have hu' : u ≠ "" := by
        intro h
        exact h3 (by rw [hu, h])
      simp [truthy, hu']
  simp only [SegmentEventBuilder.validateEvent,
    SegmentEventBuilder.buildBaseEvent]
  simp [hname, ht, hm, h1, h2, huser]

/-- The fields of a record that `validateEvent` inspects. -/
def validationFields (e : ExecutionLogMessage) :
    String × String × Option String × Option String × String × String :=
  (e.type, e.event, e.userId, e.anonymousId, e.timestamp, e.messageId)

lemma validateEvent_congr {a b : ExecutionLogMessage}
    (h : validationFields a = validationFields b) :
    SegmentEventBuilder.validateEvent a =
      SegmentEventBuilder.validateEvent b := by
  obtain ⟨h1, h2, h3, h4, h5, h6⟩ :
      a.type = b.type ∧ a.event = b.event ∧ a.userId = b.userId ∧
      a.anonymousId = b.anonymousId ∧ a.timestamp = b.timestamp ∧
      a.messageId = b.messageId := by
    simpa [validationFields, Prod.ext_iff] using h
  simp [SegmentEventBuilder.validateEvent, h1, h2, h3, h4, h5, h6]

lemma completeEvent_fields (env : BuildEnv) (meta : BuildMeta)
    (ctx : WorkflowExecutionContext) :
    validationFields
      (SegmentEventBuilder.buildWorkflowCompleteEvent env meta ctx) =
    validationFields
      (SegmentEventBuilder.buildBaseEvent env meta ctx
        "Workflow Completed") := by
  unfold SegmentEventBuilder.buildWorkflowCompleteEvent
  repeat' split
  all_goals rfl

lemma errorEvent_fields (env : BuildEnv) (meta : BuildMeta)
    (ctx : WorkflowExecutionContext) :
    validationFields
      (SegmentEventBuilder.buildWorkflowErrorEvent env meta ctx) =
    validationFields
      (SegmentEventBuilder.buildBaseEvent env meta ctx
        "Workflow Failed") := by
  unfold SegmentEventBuilder.buildWorkflowErrorEvent
  repeat' split
  all_goals rfl

lemma cancelEvent_fields (env : BuildEnv) (meta : BuildMeta)
    (ctx : WorkflowExecutionContext) :
    validationFields
      (SegmentEventBuilder.buildWorkflowCancelEvent env meta ctx) =
    validationFields
      (SegmentEventBuilder.buildBaseEvent env meta ctx
        "Workflow Cancelled") := by
  unfold SegmentEventBuilder.buildWorkflowCancelEvent
  repeat' split
  all_goals rfl

/-- C9: for every context whose `userId` is not the pathological empty
string, and with the build-time timestamp in `toISOString` shape and a
regex-conforming UUID, all four builders produce records that pass
`validateEvent`; exactly one of `userId`/`anonymousId` is present in
every such record (all four builders agree on those two fields), and
when no user is given the `anonymousId` is `anon_` plus the first 8
characters of the execution id. -/
theorem buildEvent_validates (env : BuildEnv) (meta : BuildMeta)
    (ctx : WorkflowExecutionContext)
    (h1 : SegmentEventBuilder.isoTimestampValid meta.timestamp = true)
    (h2 : SegmentEventBuilder.uuidMatch meta.messageId = true)
    (h3 : ctx.userId ≠ some "") :
    SegmentEventBuilder.validateEvent
      (SegmentEventBuilder.buildWorkflowStartEvent env meta ctx) = true ∧
    SegmentEventBuilder.validateEvent
      (SegmentEventBuilder.buildWorkflowCompleteEvent env meta ctx) = true ∧
    SegmentEventBuilder.validateEvent
      (SegmentEventBuilder.buildWorkflowErrorEvent env meta ctx) = true ∧
    SegmentEventBuilder.validateEvent
      (SegmentEventBuilder.buildWorkflowCancelEvent env meta ctx) = true ∧
    (SegmentEventBuilder.buildWorkflowStartEvent env meta
      ctx).anonymousId.isSome =
      !(SegmentEventBuilder.buildWorkflowStartEvent env meta
        ctx).userId.isSome ∧
    ((SegmentEventBuilder.buildWorkflowCompleteEvent env meta ctx).userId =
        (SegmentEventBuilder.buildWorkflowStartEvent env meta ctx).userId ∧
      (SegmentEventBuilder.buildWorkflowCompleteEvent env meta
        ctx).anonymousId =
        (SegmentEventBuilder.buildWorkflowStartEvent env meta
          ctx).anonymousId) ∧
    ((SegmentEventBuilder.buildWorkflowErrorEvent env meta ctx).userId =
        (SegmentEventBuilder.buildWorkflowStartEvent env meta ctx).userId ∧
      (SegmentEventBuilder.buildWorkflowErrorEvent env meta
        ctx).anonymousId =
        (SegmentEventBuilder.buildWorkflowStartEvent env meta
          ctx).anonymousId) ∧
    ((SegmentEventBuilder.buildWorkflowCancelEvent env meta ctx).userId =
        (SegmentEventBuilder.buildWorkflowStartEvent env meta ctx).userId ∧
      (SegmentEventBuilder.buildWorkflowCancelEvent env meta
        ctx).anonymousId =
        (SegmentEventBuilder.buildWorkflowStartEvent env meta
          ctx).anonymousId) ∧
    (ctx.userId = none →
      (SegmentEventBuilder.buildWorkflowStartEvent env meta
        ctx).anonymousId =
        some ("anon_" ++ ctx.executionId.take 8)) := by
  have hstart : SegmentEventBuilder.validateEvent
      (SegmentEventBuilder.buildWorkflowStartEvent env meta ctx) = true :=
    validateEvent_base env meta ctx "Workflow Started" (by decide) h1 h2 h3
  have hcfields := completeEvent_fields env meta ctx
  have hefields := errorEvent_fields env meta ctx
  have hcanfields := cancelEvent_fields env meta ctx
  refine ⟨hstart,
    (validateEvent_congr hcfields).trans
      (validateEvent_base env meta ctx "Workflow Completed" (by decide)
        h1 h2 h3),
    (validateEvent_congr hefields).trans
      (validateEvent_base env meta ctx "Workflow Failed" (by decide)
        h1 h2 h3),
    (validateEvent_congr hcanfields).trans
      (validateEvent_base env meta ctx "Workflow Cancelled" (by decide)
        h1 h2 h3),
    ?_, ?_, ?_, ?_, ?_⟩
  · show (if truthy ctx.userId then none
      else some (SegmentEventBuilder.generateAnonymousId
        ctx.executionId)).isSome = !ctx.userId.isSome
    cases hu : ctx.userId with
    | none => simp [truthy]
    | some u =>
      have hu' : u ≠ "" := by
        intro h
        exact h3 (by rw [hu, h])
      simp [truthy, hu']
  · have := hcfields
    simp only [validationFields, Prod.ext_iff] at this
    exact ⟨this.2.2.1, this.2.2.2.1⟩
  · have := hefields
    simp only [validationFields, Prod.ext_iff] at this
    exact ⟨this.2.2.1, this.2.2.2.1⟩
  · have := hcanfields
    simp only [validationFields, Prod.ext_iff] at this
    exact ⟨this.2.2.1, this.2.2.2.1⟩
  · intro hu
    show (if truthy ctx.userId then none
      else some (SegmentEventBuilder.generateAnonymousId
        ctx.executionId)) =
      some ("anon_" ++ ctx.executionId.take 8)
    rw [hu]
    rfl

/-- A context without a user, for the anonymous-id path. -/
def anonCtx : WorkflowExecutionContext :=
  { executionId := "exec-456"
    workflowData := sampleWorkflow
    mode := "manual"
    userId := none
    runData := none
    retryOf := none
    startedAt := some 1672567200000
    finishedAt := none }

/-- C9, witness: with the sample timestamp/UUID and a context without a
user, the Started record passes `validateEvent` and derives
`anonymousId = "anon_exec-456"`. -/
theorem buildEvent_validates_witness :
    (SegmentEventBuilder.isoTimestampValid sampleMeta.timestamp = true ∧
      SegmentEventBuilder.uuidMatch sampleMeta.messageId = true ∧
      anonCtx.userId ≠ some "") ∧
    SegmentEventBuilder.validateEvent
      (SegmentEventBuilder.buildWorkflowStartEvent sampleEnv sampleMeta
        anonCtx) = true ∧
    (SegmentEventBuilder.buildWorkflowStartEvent sampleEnv sampleMeta
      anonCtx).anonymousId = some ("anon_" ++ anonCtx.executionId.take 8) :=
  ⟨⟨by decide, by decide, by decide⟩,
    (buildEvent_validates sampleEnv sampleMeta anonCtx (by decide)
      (by decide) (by decide)).1,
    (buildEvent_validates sampleEnv sampleMeta anonCtx (by decide)
      (by decide) (by decide)).2.2.2.2.2.2.2.2 rfl⟩

/-! ### Circuit-breaker lemmas -/

lemma checkWindow_state (cfg : CBConfig) (now : Int) (cb : CircuitBreaker) :
    (checkMonitoringWindow cfg now cb).state = cb.state := by
  unfold checkMonitoringWindow
  repeat' split
  all_goals rfl

lemma checkWindow_nextAttemptTime (cfg : CBConfig) (now : Int)
    (cb : CircuitBreaker) :
    (checkMonitoringWindow cfg now cb).nextAttemptTime =
      cb.nextAttemptTime := by
  unfold checkMonitoringWindow
  repeat' split
  all_goals rfl

lemma checkWindow_failureCount_ne (cfg : CBConfig) (now : Int)
    (cb : CircuitBreaker) (h : cb.state ≠ .Closed) :
    (checkMonitoringWindow cfg now cb).failureCount = cb.failureCount := by
  unfold checkMonitoringWindow
  rw [if_neg h]
  split
  all_goals rfl

lemma checkWindow_windowStart_elapsed (cfg : CBConfig) (now : Int)
    (cb : CircuitBreaker)
    (h : cfg.monitoringPeriod ≤ now - cb.monitoringWindowStart) :
    (checkMonitoringWindow cfg now cb).monitoringWindowStart = now := by
  unfold checkMonitoringWindow
  rw [if_pos h]
  split
  all_goals rfl

lemma checkWindow_counters_closed_elapsed (cfg : CBConfig) (now : Int)
    (cb : CircuitBreaker)
    (h : cfg.monitoringPeriod ≤ now - cb.monitoringWindowStart)
    (hc : cb.state = .Closed) :
    (checkMonitoringWindow cfg now cb).failureCount = 0 ∧
    (checkMonitoringWindow cfg now cb).successCount = 0 := by
  unfold checkMonitoringWindow
  rw [if_pos h, if_pos hc]
  exact ⟨rfl, rfl⟩

/-- The invariant driving backoff: outside `Closed`, the failure counter
has reached the threshold (the monitoring window never resets it
there). -/
def CBInv (cfg : CBConfig) (cb : CircuitBreaker) : Prop :=
  cb.state ≠ .Closed → cfg.failureThreshold ≤ cb.failureCount

lemma checkWindow_cbInv {cfg : CBConfig} {cb : CircuitBreaker} (now : Int)
    (h : CBInv cfg cb) : CBInv cfg (checkMonitoringWindow cfg now cb) := by
  intro hne
  rw [checkWindow_state] at hne
  rw [checkWindow_failureCount_ne cfg now cb hne]
  exact h hne

lemma onSuccess_cbInv {cfg : CBConfig} {cb : CircuitBreaker}
    (h : CBInv cfg cb) : CBInv cfg (onSuccess cb) := by
  intro hne
  cases hst : cb.state with
  | HalfOpen =>
    exfalso
    apply hne
    simp [onSuccess, hst]
  | Closed =>
    have heq : onSuccess cb = { cb with successCount := cb.successCount + 1 } := by
      simp [onSuccess, hst]
    rw [heq] at hne ⊢
    exact h hne
  | Open =>
    have heq : onSuccess cb = { cb with successCount := cb.successCount + 1 } := by
      simp [onSuccess, hst]
    rw [heq] at hne ⊢
    exact h hne

lemma onFailure_halfOpen {cfg : CBConfig} {now : Int} {cb : CircuitBreaker}
    (hst : cb.state = .HalfOpen) :
    onFailure cfg now cb =
      { cb with
        state := .Open
        failureCount := cb.failureCount + 1
        lastFailureTime := some now
        nextAttemptTime := some (now + cfg.resetTimeout *
          ((min (2 ^ (cb.failureCount + 1 - cfg.failureThreshold)) 8 : Nat) : Int)) } := by
  simp [onFailure, setNextAttemptTime, hst]

lemma onFailure_closed_trip {cfg : CBConfig} {now : Int} {cb : CircuitBreaker}
    (hst : cb.state = .Closed)
    (hth : cfg.failureThreshold ≤ cb.failureCount + 1) :
    onFailure cfg now cb =
      { cb with
        state := .Open
        failureCount := cb.failureCount + 1
        lastFailureTime := some now
        nextAttemptTime := some (now + cfg.resetTimeout *
          ((min (2 ^ (cb.failureCount + 1 - cfg.failureThreshold)) 8 : Nat) : Int)) } := by
  simp [onFailure, setNextAttemptTime, hst, hth]

lemma onFailure_closed_stay {cfg : CBConfig} {now : Int} {cb : CircuitBreaker}
    (hst : cb.state = .Closed)
    (hth : ¬ cfg.failureThreshold ≤ cb.failureCount + 1) :
    onFailure cfg now cb =
      { cb with
        failureCount := cb.failureCount + 1
        lastFailureTime := some now } := by
  simp [onFailure, setNextAttemptTime, hst, hth]

lemma onFailure_open_stay {cfg : CBConfig} {now : Int} {cb : CircuitBreaker}
    (hst : cb.state = .Open) :
    onFailure cfg now cb =
      { cb with
        failureCount := cb.failureCount + 1
        lastFailureTime := some now } := by
  simp [onFailure, setNextAttemptTime, hst]

lemma onFailure_cbInv {cfg : CBConfig} {cb : CircuitBreaker} (now : Int)
    (h : CBInv cfg cb) : CBInv cfg (onFailure cfg now cb) := by
  cases hst : cb.state with
  | HalfOpen =>
    rw [onFailure_halfOpen hst]
    intro _
    show cfg.failureThreshold ≤ cb.failureCount + 1
    exact Nat.le_succ_of_le (h (by rw [hst]; intro hc; cases hc))
  | Closed =>
    by_cases hth : cfg.failureThreshold ≤ cb.failureCount + 1
    · rw [onFailure_closed_trip hst hth]
      intro _
      exact hth
    · rw [onFailure_closed_stay hst hth]
      intro hne
      exact absurd hst hne
  | Open =>
    rw [onFailure_open_stay hst]
    intro _
    show cfg.failureThreshold ≤ cb.failureCount + 1
    exact Nat.le_succ_of_le (h (by rw [hst]; intro hc; cases hc))

lemma runOp_cbInv {σ : Type} {cfg : CBConfig} {cb : CircuitBreaker}
    (now : Int) (op : σ → σ × Bool) (w : σ) (h : CBInv cfg cb) :
    CBInv cfg (runOp cfg now op w cb).1 := by
  unfold runOp
  by_cases hop : (op w).2 = true
  · simp only [hop, if_true]
    exact onSuccess_cbInv h
  · simp only [Bool.not_eq_true] at hop
    simp only [hop, Bool.false_eq_true, if_false]
    exact onFailure_cbInv now h

lemma cbStep_cbInv {cfg : CBConfig} {cb : CircuitBreaker} (ev : CBEvent)
    (h : CBInv cfg cb) : CBInv cfg (cbStep cfg cb ev) := by
  cases ev with
  | observe now => exact checkWindow_cbInv now h
  | exec now ok =>
    show CBInv cfg (execute cfg now (fun u : Unit => (u, ok)) () cb).1
    have h' := @checkWindow_cbInv cfg cb now h
    unfold execute
    by_cases hO : (checkMonitoringWindow cfg now cb).state = CBState.Open
    · by_cases hres :
          shouldAttemptReset now (checkMonitoringWindow cfg now cb) = true
      · simp only [hO, if_true, hres]
        apply runOp_cbInv
        intro _
        show cfg.failureThreshold ≤
          (checkMonitoringWindow cfg now cb).failureCount
        exact h' (by rw [hO]; intro hc; cases hc)
      · simp only [Bool.not_eq_true] at hres
        simp only [hO, if_true, hres, Bool.false_eq_true, if_false]
        exact h'
    · rw [if_neg hO]
      exact runOp_cbInv now _ () h'

lemma cbRun_cbInv (cfg : CBConfig) (now0 : Int) (evs : List CBEvent) :
    CBInv cfg (cbRun cfg now0 evs) := by
  unfold cbRun
  have hbase : CBInv cfg (CircuitBreaker.init now0) := fun hne =>
    absurd rfl hne
  generalize CircuitBreaker.init now0 = cb0 at hbase ⊢
  induction evs generalizing cb0 with
  | nil => exact hbase
  | cons ev rest ih => exact ih _ (cbStep_cbInv ev hbase)

/-- The backoff delay the breaker installs for a given failure count:
`resetTimeout × min(2^(failureCount − failureThreshold), 8)` (natural
subtraction, i.e. the `Math.max(0, …)` of the source). -/
def backoffDelay (cfg : CBConfig) (failureCount : Nat) : Int :=
  cfg.resetTimeout *
    ((min (2 ^ (failureCount - cfg.failureThreshold)) 8 : Nat) : Int)

lemma backoffDelay_le {cfg : CBConfig} (hrt : 0 < cfg.resetTimeout)
    (k : Nat) : backoffDelay cfg k ≤ 8 * cfg.resetTimeout := by
  unfold backoffDelay
  have hmin : ((min (2 ^ (k - cfg.failureThreshold)) 8 : Nat) : Int) ≤ 8 := by
    exact_mod_cast min_le_right _ 8
  calc cfg.resetTimeout * ((min (2 ^ (k - cfg.failureThreshold)) 8 : Nat) : Int)
      ≤ cfg.resetTimeout * 8 :=
        mul_le_mul_of_nonneg_left hmin (le_of_lt hrt)
    _ = 8 * cfg.resetTimeout := mul_comm _ _

lemma backoffDelay_mono {cfg : CBConfig} (hrt : 0 < cfg.resetTimeout)
    {f1 f2 : Nat} (hf : f1 ≤ f2) :
    backoffDelay cfg f1 ≤ backoffDelay cfg f2 := by
  unfold backoffDelay
  apply mul_le_mul_of_nonneg_left _ (le_of_lt hrt)
  have : min (2 ^ (f1 - cfg.failureThreshold)) 8 ≤
      min (2 ^ (f2 - cfg.failureThreshold)) 8 :=
    min_le_min
      (Nat.pow_le_pow_right (by norm_num) (Nat.sub_le_sub_right hf _))
      (le_refl 8)
  exact_mod_cast this

/-- C6: with the breaker `Open` and `nextAttemptTime = t`, an `execute`
call before `t` fails immediately with the breaker-open rejection, the
operation is never invoked and the world is untouched; a call at or
after `t` transitions the breaker to `Half-Open` and runs the operation
(the outcome is the operation's own success or failure and the world
advances by one application of the operation). -/
theorem execute_open_guard {σ : Type} (cfg : CBConfig) (cb : CircuitBreaker)
    (now t : Int) (op : σ → σ × Bool) (w : σ)
    (hst : cb.state = CBState.Open) (hnat : cb.nextAttemptTime = some t) :
    (now < t →
      execute cfg now op w cb =
        (checkMonitoringWindow cfg now cb, w, ExecOutcome.rejected)) ∧
    (t ≤ now →
      execute cfg now op w cb =
        runOp cfg now op w
          { checkMonitoringWindow cfg now cb with state := CBState.HalfOpen } ∧
      (execute cfg now op w cb).2.1 = (op w).1 ∧
      (execute cfg now op w cb).2.2 =
        (if (op w).2 then ExecOutcome.succeeded else ExecOutcome.failed)) := by
  have hs' : (checkMonitoringWindow cfg now cb).state = CBState.Open := by
    rw [checkWindow_state, hst]
  have hn' : (checkMonitoringWindow cfg now cb).nextAttemptTime = some t := by
    rw [checkWindow_nextAttemptTime, hnat]
  have hres : shouldAttemptReset now (checkMonitoringWindow cfg now cb) =
      decide (t ≤ now) := by
    unfold shouldAttemptReset
    rw [hn']
  constructor
  · intro hlt
    have hres' : ¬ shouldAttemptReset now
        (checkMonitoringWindow cfg now cb) = true := by
      rw [hres]
      simpa using not_le.mpr hlt
    unfold execute
    rw [if_pos hs', if_neg hres']
  · intro hge
    have hres' : shouldAttemptReset now
        (checkMonitoringWindow cfg now cb) = true := by
      rw [hres]
      simpa using hge
    have hE : execute cfg now op w cb =
        runOp cfg now op w
          { checkMonitoringWindow cfg now cb with
            state := CBState.HalfOpen } := by
      unfold execute
      rw [if_pos hs', if_pos hres']
    refine ⟨hE, ?_, ?_⟩
    · rw [hE]
      unfold runOp
      by_cases hop : (op w).2 = true
      · simp [hop]
      · simp only [Bool.not_eq_true] at hop
        simp [hop]
    · rw [hE]
      unfold runOp
      by_cases hop : (op w).2 = true
      · simp [hop]
      · simp only [Bool.not_eq_true] at hop
        simp [hop]

/-- The operation guarded in the C6 witness: increments a counter and
succeeds. -/
def sampleOp : Nat → Nat × Bool := fun n => (n + 1, true)

/-- A breaker sitting `Open` with `nextAttemptTime = 10`. -/
def openCb : CircuitBreaker :=
  { state := .Open, failureCount := 5, successCount := 0,
    lastFailureTime := some 0, nextAttemptTime := some 10,
    monitoringWindowStart := 0 }

/-- Breaker configuration used by the concrete breaker witnesses. -/
def obsCfg : CBConfig :=
  { failureThreshold := 5, resetTimeout := 1000, monitoringPeriod := 10 }

/-- C6, witness: at `now = 5 < 10` the call is rejected and the world
(counter 0) is unchanged — the operation never ran. -/
theorem execute_open_guard_witness :
    openCb.state = CBState.Open ∧ openCb.nextAttemptTime = some 10 ∧
    (5 : Int) < 10 ∧
    execute obsCfg 5 sampleOp 0 openCb =
      (checkMonitoringWindow obsCfg 5 openCb, 0, ExecOutcome.rejected) :=
  ⟨rfl, rfl, by decide,
    (execute_open_guard obsCfg openCb 5 10 sampleOp 0 rfl rfl).1 (by decide)⟩

/-- The always-failing operation driving the C7 backoff analysis. -/
def failingOp : Unit → Unit × Bool := fun u => (u, false)

/-- C7: whenever a failing `execute` call on a reachable breaker leaves
it `Open` (tripping from `Closed` at the threshold, or falling back from
`Half-Open`), the new `nextAttemptTime` is
`now + resetTimeout × min(2^(failureCount − failureThreshold), 8)` with
the post-call failure count at or above the threshold (so the natural
subtraction agrees with the claim's integer one); the delay is capped by
`8 × resetTimeout` and is monotonically non-decreasing in the failure
count, which successive failures only increment. -/
theorem breaker_open_backoff (cfg : CBConfig) (hrt : 0 < cfg.resetTimeout)
    (now0 now : Int) (evs : List CBEvent)
    (hfail : (execute cfg now failingOp ()
      (cbRun cfg now0 evs)).2.2 = ExecOutcome.failed)
    (hopen : (execute cfg now failingOp ()
      (cbRun cfg now0 evs)).1.state = CBState.Open) :
    (execute cfg now failingOp () (cbRun cfg now0 evs)).1.nextAttemptTime =
      some (now + backoffDelay cfg
        (execute cfg now failingOp ()
          (cbRun cfg now0 evs)).1.failureCount) ∧
    cfg.failureThreshold ≤
      (execute cfg now failingOp () (cbRun cfg now0 evs)).1.failureCount ∧
    backoffDelay cfg
      (execute cfg now failingOp () (cbRun cfg now0 evs)).1.failureCount ≤
      8 * cfg.resetTimeout ∧
    (∀ f1 f2 : Nat, f1 ≤ f2 →
      backoffDelay cfg f1 ≤ backoffDelay cfg f2) := by
  have hinv' : CBInv cfg (checkMonitoringWindow cfg now (cbRun cfg now0 evs)) :=
    checkWindow_cbInv now (cbRun_cbInv cfg now0 evs)
  set cb' := checkMonitoringWindow cfg now (cbRun cfg now0 evs) with hcb'
  by_cases hO : cb'.state = CBState.Open
  · by_cases hres : shouldAttemptReset now cb' = true
    · have hE : execute cfg now failingOp () (cbRun cfg now0 evs) =
          (onFailure cfg now { cb' with state := CBState.HalfOpen }, (),
            ExecOutcome.failed) := by
        unfold execute
        rw [← hcb', if_pos hO, if_pos hres]
        rfl
      have hth : cfg.failureThreshold ≤ cb'.failureCount :=
        hinv' (by rw [hO]; intro hc; cases hc)
      rw [hE]
      rw [onFailure_halfOpen rfl]
      refine ⟨rfl, ?_, ?_, fun f1 f2 hf => backoffDelay_mono hrt hf⟩
      · show cfg.failureThreshold ≤ cb'.failureCount + 1
        exact Nat.le_succ_of_le hth
      · exact backoffDelay_le hrt _
    · have hE : execute cfg now failingOp () (cbRun cfg now0 evs) =
          (cb', (), ExecOutcome.rejected) := by
        unfold execute
        rw [← hcb', if_pos hO, if_neg hres]
      rw [hE] at hfail
      have hcontr : ExecOutcome.rejected = ExecOutcome.failed := hfail
      exact absurd hcontr (by decide)
  · have hE : execute cfg now failingOp () (cbRun cfg now0 evs) =
        (onFailure cfg now cb', (), ExecOutcome.failed) := by
      unfold execute
      rw [← hcb', if_neg hO]
      rfl
    rw [hE] at hopen ⊢
    cases hst : cb'.state with
    | Open => exact absurd hst hO
    | HalfOpen =>
      have hth : cfg.failureThreshold ≤ cb'.failureCount :=
        hinv' (by rw [hst]; intro hc; cases hc)
      rw [onFailure_halfOpen hst]
      refine ⟨rfl, ?_, ?_, fun f1 f2 hf => backoffDelay_mono hrt hf⟩
      · show cfg.failureThreshold ≤ cb'.failureCount + 1
        exact Nat.le_succ_of_le hth
      · exact backoffDelay_le hrt _
    | Closed =>
      by_cases hth : cfg.failureThreshold ≤ cb'.failureCount + 1
      · rw [onFailure_closed_trip hst hth]
        exact ⟨rfl, hth, backoffDelay_le hrt _,
          fun f1 f2 hf => backoffDelay_mono hrt hf⟩
      · rw [onFailure_closed_stay hst hth] at hopen
        have hx : cb'.state = CBState.Open := hopen
        rw [hst] at hx
        exact absurd hx (by decide)

/-- C7, witness: threshold 5 and reset timeout 1000; five failing calls
from a fresh breaker trip it to `Open`, and the fifth failure installs
`nextAttemptTime = now + 1000 × min(2^(5−5), 8) = 0 + 1000`. -/
theorem breaker_open_backoff_witness :
    (0 : Int) < obsCfg.resetTimeout ∧
    (execute obsCfg 0 failingOp ()
      (cbRun obsCfg 0 [CBEvent.exec 0 false, CBEvent.exec 0 false,
        CBEvent.exec 0 false, CBEvent.exec 0 false])).2.2 =
      ExecOutcome.failed ∧
    (execute obsCfg 0 failingOp ()
      (cbRun obsCfg 0 [CBEvent.exec 0 false, CBEvent.exec 0 false,
        CBEvent.exec 0 false, CBEvent.exec 0 false])).1.state =
      CBState.Open ∧
    (execute obsCfg 0 failingOp ()
      (cbRun obsCfg 0 [CBEvent.exec 0 false, CBEvent.exec 0 false,
        CBEvent.exec 0 false, CBEvent.exec 0 false])).1.nextAttemptTime =
      some 1000 :=
  ⟨by decide, by decide, by decide,
    (breaker_open_backoff obsCfg (by decide) 0 0
      [CBEvent.exec 0 false, CBEvent.exec 0 false, CBEvent.exec 0 false,
        CBEvent.exec 0 false] (by decide) (by decide)).1.trans (by decide)⟩

/-- A `Closed` breaker with three failures inside a still-fresh
monitoring window starting at 0. -/
def obsCb : CircuitBreaker :=
  { state := .Closed, failureCount := 3, successCount := 1,
    lastFailureTime := none, nextAttemptTime := none,
    monitoringWindowStart := 0 }

/-- C10: `getState` and `getMetrics` both run the monitoring-window
check before reading, so once the monitoring period has elapsed the call
moves the window start to `now` and, in `Closed` state, zeroes both
counters; concretely, two consecutive `getMetrics` calls with no
`execute` in between report failure counts 3 and then 0. -/
theorem observers_mutate (cfg : CBConfig) (cb : CircuitBreaker) (now : Int)
    (h : cfg.monitoringPeriod ≤ now - cb.monitoringWindowStart) :
    (getState cfg now cb).1.monitoringWindowStart = now ∧
    (getMetrics cfg now cb).1.monitoringWindowStart = now ∧
    (cb.state = CBState.Closed →
      (getMetrics cfg now cb).1.failureCount = 0 ∧
      (getMetrics cfg now cb).1.successCount = 0 ∧
      (getMetrics cfg now cb).2.failureCount = 0 ∧
      (getMetrics cfg now cb).2.successCount = 0) ∧
    ((getMetrics obsCfg 5 obsCb).2.failureCount = 3 ∧
      (getMetrics obsCfg 10 (getMetrics obsCfg 5 obsCb).1).2.failureCount =
        0) := by
  refine ⟨?_, ?_, ?_, by decide⟩
  · show (checkMonitoringWindow cfg now cb).monitoringWindowStart = now
    exact checkWindow_windowStart_elapsed cfg now cb h
  · show (checkMonitoringWindow cfg now cb).monitoringWindowStart = now
    exact checkWindow_windowStart_elapsed cfg now cb h
  · intro hc
    have hcc := checkWindow_counters_closed_elapsed cfg now cb h hc
    exact ⟨hcc.1, hcc.2, hcc.1, hcc.2⟩

/-- C10, witness: the observer theorem at `now = 12` on a `Closed`
breaker whose window started at 0 with period 10 — the call resets the
window and the counters it reports. -/
theorem observers_mutate_witness :
    obsCfg.monitoringPeriod ≤ 12 - obsCb.monitoringWindowStart ∧
    (getState obsCfg 12 obsCb).1.monitoringWindowStart = 12 ∧
    (getMetrics obsCfg 12 obsCb).2.failureCount = 0 ∧
    (getMetrics obsCfg 5 obsCb).2.failureCount = 3 :=
  ⟨by decide,
    (observers_mutate obsCfg obsCb 12 (by decide)).1,
    ((observers_mutate obsCfg obsCb 12 (by decide)).2.2.1 rfl).2.2.1,
    (observers_mutate obsCfg obsCb 12 (by decide)).2.2.2.1⟩

end KafkaLogger
